import Mathlib

/-!
Verification of `src/app/utils/gcpUploader.ts` (revault).

Shallow embedding: the module's pure logic (credential-branch selection,
object-key and URL construction, content-type lookup) is translated into
executable Lean functions; every remote SDK call (get buckets, bucket/file
exists, save, get metadata, delete, set IAM policy, create bucket) is an
oracle value of type `Except String _` supplied as a parameter, standing for
the call either returning normally or throwing.  Console logging is not
modelled.  JavaScript truthiness of environment variables is modelled by
`truthy` (a variable that is unset or the empty string is falsy).
-/

/-- JS truthiness of `process.env.X`: set and non-empty. -/
def truthy : Option String → Bool
  | none => false
  | some s => !(s == "")

/-- The environment conditions read at module initialization. -/
structure CredEnv where
  nodeEnv : Option String
  keyFileExists : Bool
  credentialsBase64 : Option String
  projectId : Option String
  clientEmail : Option String
  privateKey : Option String

/-- `process.env.NODE_ENV === 'development'`. -/
def isDevelopment (e : CredEnv) : Bool :=
  e.nodeEnv == some "development"

/-- Branch 1 guard: `isDevelopment && fs.existsSync(serviceAccountPath)`. -/
def useKeyFileCond (e : CredEnv) : Bool :=
  isDevelopment e && e.keyFileExists

/-- Branch 2 guard: `process.env.GOOGLE_CLOUD_CREDENTIALS_BASE64` truthy. -/
def useBase64Cond (e : CredEnv) : Bool :=
  truthy e.credentialsBase64

/-- Branch 3 guard: project id, client email and private key all truthy. -/
def useTripleCond (e : CredEnv) : Bool :=
  truthy e.projectId && truthy e.clientEmail && truthy e.privateKey

/-- Which `new Storage(...)` construction the initializer performed. -/
inductive CredBranch where
  | keyFile
  | base64Blob
  | envTriple
  | ambient
deriving DecidableEq

/-- The module-level `try { if ... else if ... } catch (error) { throw error }`.
`parseRes` is the oracle for `JSON.parse(Buffer.from(..., 'base64').toString('utf-8'))`,
which is evaluated only inside the base64 branch; the catch block re-raises
the same error, so a parse failure propagates unchanged. -/
def initStorage (e : CredEnv) (parseRes : Except String Unit) :
    Except String CredBranch :=
  if useKeyFileCond e then
    Except.ok CredBranch.keyFile
  else if useBase64Cond e then
    match parseRes with
    | Except.error m => Except.error m
    | Except.ok _ => Except.ok CredBranch.base64Blob
  else if useTripleCond e then
    Except.ok CredBranch.envTriple
  else
    Except.ok CredBranch.ambient

/-! ### Path helpers (Node `path.extname` / `path.basename`, posix) -/

/-- Characters of the last `/`-separated component (first argument is the
reversed current segment accumulator). -/
def lastCompChars : List Char → List Char → List Char
  | cur, [] => cur.reverse
  | _, '/' :: rest => lastCompChars [] rest
  | cur, c :: rest => lastCompChars (c :: cur) rest

/-- Last path component of `s` (Node's "last portion"). -/
def lastComponent (s : String) : String :=
  String.mk (lastCompChars [] s.data)

/-- The suffix of `l` starting at its last `.`, if any. -/
def lastDotSuffix : List Char → Option (List Char)
  | [] => none
  | c :: rest =>
    match lastDotSuffix rest with
    | some s => some s
    | none => if c = '.' then some (c :: rest) else none

/-- `path.extname` on a basename: empty when there is no dot, when the only
dot leads the name (`.bashrc`), or for `..`. -/
def extnameOfBase (b : List Char) : List Char :=
  if b = ['.', '.'] then []
  else
    match lastDotSuffix b with
    | none => []
    | some s => if s.length = b.length then [] else s

/-- Node `path.extname`. -/
def extname (p : String) : String :=
  String.mk (extnameOfBase (lastComponent p).data)

/-- Node `path.basename(p, ext)`: the last component, with `ext` stripped when
it is a proper suffix. -/
def basenameExt (p ext : String) : String :=
  let b := (lastComponent p).data
  let e := ext.data
  if 0 < e.length ∧ e.length < b.length ∧ e.isSuffixOf b then
    String.mk (b.take (b.length - e.length))
  else
    String.mk b

/-! ### Object keys, URLs and content types -/

/-- `const bucketName = "revault-files"`. -/
def bucketName : String := "revault-files"

/-- `` `${baseName}-${uuidv4()}${fileExtension}` `` with the uuid passed in as
an oracle value. -/
def uniqueFilename (orig uuid : String) : String :=
  basenameExt orig (extname orig) ++ "-" ++ uuid ++ extname orig

/-- Paper upload key `` `papers/${timestamp}/${uniqueFilename}` ``; `today` is
the oracle for `new Date().toISOString().split('T')[0]`. -/
def paperFilepath (orig uuid today : String) : String :=
  "papers/" ++ today ++ "/" ++ uniqueFilename orig uuid

/-- Profile upload key `` `profiles/${userId}/${uniqueFilename}` ``. -/
def profileFilepath (userId orig uuid : String) : String :=
  "profiles/" ++ userId ++ "/" ++ uniqueFilename orig uuid

/-- Delete key `` `profiles/${userId}/${filename}` ``. -/
def deleteFilepath (userId filename : String) : String :=
  "profiles/" ++ userId ++ "/" ++ filename

/-- `` `https://storage.googleapis.com/${bucketName}/${filepath}` ``. -/
def publicUrl (filepath : String) : String :=
  "https://storage.googleapis.com/" ++ bucketName ++ "/" ++ filepath

/-- ASCII model of JS `String.prototype.toLowerCase`. -/
def lowerStr (s : String) : String :=
  String.mk (s.data.map Char.toLower)

/-- The inner `getContentType` of `uploadProfilePicture`: switch on the
lower-cased extension. -/
def getContentType (filename : String) : String :=
  let ext := lowerStr (extname filename)
  if ext = ".jpg" then "image/jpeg"
  else if ext = ".jpeg" then "image/jpeg"
  else if ext = ".png" then "image/png"
  else if ext = ".gif" then "image/gif"
  else if ext = ".webp" then "image/webp"
  else "image/jpeg"

/-- The metadata fields of the `file.save` options that are fixed data
(the diagnostic timestamp/original-name tags are not modelled). -/
structure SaveMetadata where
  contentType : String
  cacheControl : String
deriving DecidableEq

/-- Save metadata of `uploadFile` (research papers). -/
def paperSaveMetadata : SaveMetadata :=
  { contentType := "application/pdf", cacheControl := "public, max-age=31536000" }

/-- Save metadata of `uploadProfilePicture`. -/
def profileSaveMetadata (originalFilename : String) : SaveMetadata :=
  { contentType := getContentType originalFilename
    cacheControl := "public, max-age=31536000" }

/-! ### Remote-call oracles and the exported operations -/

/-- Outcomes of the three backend calls `testConnection` performs. -/
structure Backend where
  getBucketsRes : Except String (List String)
  bucketExistsRes : Except String Bool
  bucketMetadataRes : Except String Unit

/-- The `try` block of `testConnection`: each SDK failure propagates as an
error; a missing bucket returns `false` normally. -/
def testConnectionBody (b : Backend) : Except String Bool :=
  match b.getBucketsRes with
  | Except.error m => Except.error m
  | Except.ok _ =>
    match b.bucketExistsRes with
    | Except.error m => Except.error m
    | Except.ok ex =>
      if !ex then Except.ok false
      else
        match b.bucketMetadataRes with
        | Except.error m => Except.error m
        | Except.ok _ => Except.ok true

/-- `testConnection`: the `catch` converts every thrown error to `false`. -/
def testConnection (b : Backend) : Bool :=
  match testConnectionBody b with
  | Except.ok v => v
  | Except.error _ => false

/-- Outcomes of the remote calls an upload performs after its
connectivity check. -/
structure UploadBackend where
  conn : Backend
  saveRes : Except String Unit
  existsAfterRes : Except String Bool
  fileMetadataRes : Except String Unit

/-- The `try` block of `uploadFile`. -/
def uploadFileBody (w : UploadBackend) (orig uuid today : String) :
    Except String String :=
  if !testConnection w.conn then
    Except.error "Google Cloud Storage connection failed"
  else
    match w.saveRes with
    | Except.error m => Except.error m
    | Except.ok _ =>
      match w.existsAfterRes with
      | Except.error m => Except.error m
      | Except.ok ex =>
        if !ex then Except.error "File was not found after upload"
        else
          match w.fileMetadataRes with
          | Except.error m => Except.error m
          | Except.ok _ => Except.ok (publicUrl (paperFilepath orig uuid today))

/-- `uploadFile`: the `catch` re-throws wrapped as
`Failed to upload PDF file: <message>`. -/
def uploadFile (w : UploadBackend) (orig uuid today : String) :
    Except String String :=
  match uploadFileBody w orig uuid today with
  | Except.ok u => Except.ok u
  | Except.error m => Except.error ("Failed to upload PDF file: " ++ m)

/-- The `try` block of `uploadProfilePicture`. -/
def uploadProfilePictureBody (w : UploadBackend) (orig uuid userId : String) :
    Except String String :=
  if !testConnection w.conn then
    Except.error "Google Cloud Storage connection failed"
  else
    match w.saveRes with
    | Except.error m => Except.error m
    | Except.ok _ =>
      match w.existsAfterRes with
      | Except.error m => Except.error m
      | Except.ok ex =>
        if !ex then Except.error "Profile picture was not found after upload"
        else
          match w.fileMetadataRes with
          | Except.error m => Except.error m
          | Except.ok _ => Except.ok (publicUrl (profileFilepath userId orig uuid))

/-- `uploadProfilePicture`: the `catch` re-throws wrapped as
`Failed to upload profile picture: <message>`. -/
def uploadProfilePicture (w : UploadBackend) (orig uuid userId : String) :
    Except String String :=
  match uploadProfilePictureBody w orig uuid userId with
  | Except.ok u => Except.ok u
  | Except.error m => Except.error ("Failed to upload profile picture: " ++ m)

/-- `deleteProfilePicture`: `del` is the oracle for `file.delete()` at a given
object key; every failure is caught and becomes `false`. -/
def deleteProfilePicture (del : String → Except String Unit)
    (userId filename : String) : Bool :=
  match del (deleteFilepath userId filename) with
  | Except.ok _ => true
  | Except.error _ => false

/-- `makeBucketPublic`: the `catch` logs and re-throws the same error. -/
def makeBucketPublic (setPolicyRes : Except String Unit) : Except String Unit :=
  match setPolicyRes with
  | Except.ok _ => Except.ok ()
  | Except.error m => Except.error m

/-- `createBucketIfNotExists`: existence check, creation, then
`makeBucketPublic`; the `catch` logs and re-throws the same error. -/
def createBucketIfNotExists (existsRes : Except String Bool)
    (createRes : Except String Unit) (setPolicyRes : Except String Unit) :
    Except String Unit :=
  match existsRes with
  | Except.error m => Except.error m
  | Except.ok true => Except.ok ()
  | Except.ok false =>
    match createRes with
    | Except.error m => Except.error m
    | Except.ok _ => makeBucketPublic setPolicyRes

/-! ### Helper lemmas -/

/-- String append is associative. -/
theorem strAppendAssoc (a b c : String) : a ++ b ++ c = a ++ (b ++ c) :=
  String.ext (by simp)

/-- Collapse a closed left context around a variable middle segment. -/
theorem strCollapse (X Y XY u Z : String) (h : X ++ Y = XY) :
    X ++ (Y ++ u ++ Z) = XY ++ u ++ Z := by
  rw [← h, ← strAppendAssoc X (Y ++ u) Z, ← strAppendAssoc X Y u]

/-- A string of the form `P ++ (B ++ u ++ E)` determines its middle part. -/
theorem strMidInj (P B E u v : String)
    (h : P ++ (B ++ u ++ E) = P ++ (B ++ v ++ E)) : u = v := by
  apply String.ext
  have hd := congrArg String.data h
  simp only [String.data_append] at hd
  exact List.append_cancel_left (List.append_cancel_right (List.append_cancel_left hd))

/-- The URL builder is literally the fixed host-plus-bucket string followed by
the object key. -/
theorem publicUrl_eq (k : String) :
    publicUrl k = "https://storage.googleapis.com/revault-files/" ++ k := by
  have h : "https://storage.googleapis.com/" ++ bucketName ++ "/" =
      "https://storage.googleapis.com/revault-files/" := by decide
  unfold publicUrl
  rw [h]

/-! ### Claims -/

/-- Claim C1: the credential resolver evaluates its four authentication modes
in fixed priority order (development key file, base64 blob, discrete triple,
ambient default) and, for every combination of environment conditions, selects
exactly the first branch whose condition holds, even when several conditions
hold simultaneously. -/
theorem credential_priority (e : CredEnv) (p : Except String Unit) :
    (useKeyFileCond e = true → initStorage e p = Except.ok CredBranch.keyFile) ∧
    (useKeyFileCond e = false → useBase64Cond e = true → p = Except.ok () →
      initStorage e p = Except.ok CredBranch.base64Blob) ∧
    (useKeyFileCond e = false → useBase64Cond e = false → useTripleCond e = true →
      initStorage e p = Except.ok CredBranch.envTriple) ∧
    (useKeyFileCond e = false → useBase64Cond e = false → useTripleCond e = false →
      initStorage e p = Except.ok CredBranch.ambient) := by
  refine ⟨?_, ?_, ?_, ?_⟩
  · intro h1; simp [initStorage, h1]
  · intro h1 h2 h3; simp [initStorage, h1, h2, h3]
  · intro h1 h2 h3; simp [initStorage, h1, h2, h3]
  · intro h1 h2 h3; simp [initStorage, h1, h2, h3]

/-- Witness for C1: an environment in which all four conditions hold at once
still selects the development key-file branch. -/
theorem credential_priority_witness :
    useKeyFileCond ⟨some "development", true, some "x", some "p", some "e", some "k"⟩ = true ∧
    useBase64Cond ⟨some "development", true, some "x", some "p", some "e", some "k"⟩ = true ∧
    useTripleCond ⟨some "development", true, some "x", some "p", some "e", some "k"⟩ = true ∧
    initStorage ⟨some "development", true, some "x", some "p", some "e", some "k"⟩
      (Except.error "bad") = Except.ok CredBranch.keyFile :=
  ⟨by decide, by decide, by decide,
    (credential_priority ⟨some "development", true, some "x", some "p", some "e", some "k"⟩
      (Except.error "bad")).1 (by decide)⟩

/-- Counterexample to claim C4 as stated: with `NODE_ENV=development`, the
local key file present, and an unparseable base64 blob also present, the
initializer succeeds via the key-file branch instead of failing fatally. -/
theorem base64_failure_counterexample :
    truthy (some "!!!not-json!!!") = true ∧
    initStorage ⟨some "development", true, some "!!!not-json!!!", none, none, none⟩
      (Except.error "SyntaxError: Unexpected token") = Except.ok CredBranch.keyFile :=
  ⟨by decide, rfl⟩

/-- Claim C4 (amended): when the development key-file branch is not taken and
the base64 blob is present but fails to decode or parse, module initialization
re-raises the parse error; there is no fallback to a later credential branch
(the discrete-triple and ambient branches are never reached, whatever their
conditions). -/
theorem base64_failure_fatal (e : CredEnv) (m : String)
    (h1 : useKeyFileCond e = false) (h2 : useBase64Cond e = true) :
    initStorage e (Except.error m) = Except.error m := by
  simp [initStorage, h1, h2]

/-- Witness for C4 (amended): blob present and unparseable, triple also fully
present, no dev key file: initialization fails with the parse error. -/
theorem base64_failure_fatal_witness :
    useKeyFileCond ⟨none, true, some "###", some "p", some "e", some "k"⟩ = false ∧
    useBase64Cond ⟨none, true, some "###", some "p", some "e", some "k"⟩ = true ∧
    useTripleCond ⟨none, true, some "###", some "p", some "e", some "k"⟩ = true ∧
    initStorage ⟨none, true, some "###", some "p", some "e", some "k"⟩
      (Except.error "SyntaxError") = Except.error "SyntaxError" :=
  ⟨by decide, by decide, by decide,
    base64_failure_fatal ⟨none, true, some "###", some "p", some "e", some "k"⟩
      "SyntaxError" (by decide) (by decide)⟩

/-- Claim C5: the profile-picture content type is a case-insensitive match on
the filename extension (`.jpg`/`.jpeg` to JPEG, `.png` to PNG, `.gif` to GIF,
`.webp` to WEBP, anything else to the JPEG default); `avatar.PNG` for user
`u123` gets `image/png` and a key under `profiles/u123/`; document uploads use
the fixed content type `application/pdf`. -/
theorem content_type_spec (f u : String) :
    ((lowerStr (extname f) = ".jpg" ∨ lowerStr (extname f) = ".jpeg") →
      getContentType f = "image/jpeg") ∧
    (lowerStr (extname f) = ".png" → getContentType f = "image/png") ∧
    (lowerStr (extname f) = ".gif" → getContentType f = "image/gif") ∧
    (lowerStr (extname f) = ".webp" → getContentType f = "image/webp") ∧
    (lowerStr (extname f) ∉ ([".jpg", ".jpeg", ".png", ".gif", ".webp"] : List String) →
      getContentType f = "image/jpeg") ∧
    getContentType "avatar.PNG" = "image/png" ∧
    profileFilepath "u123" "avatar.PNG" u = "profiles/u123/" ++ uniqueFilename "avatar.PNG" u ∧
    paperSaveMetadata.contentType = "application/pdf" ∧
    (profileSaveMetadata f).contentType = getContentType f := by
  refine ⟨?_, ?_, ?_, ?_, ?_, ?_, ?_, ?_, ?_⟩
  · intro h
    rcases h with h | h
    · simp only [getContentType]; rw [h]; decide
    · simp only [getContentType]; rw [h]; decide
  · intro h; simp only [getContentType]; rw [h]; decide
  · intro h; simp only [getContentType]; rw [h]; decide
  · intro h; simp only [getContentType]; rw [h]; decide
  · intro h
    simp only [List.mem_cons, List.not_mem_nil, or_false, not_or] at h
    simp [getContentType, h.1, h.2.1, h.2.2.1, h.2.2.2.1, h.2.2.2.2]
  · decide
  · have h : "profiles/" ++ "u123" ++ "/" = "profiles/u123/" := by decide
    unfold profileFilepath
    rw [h]
  · rfl
  · rfl

/-- Witness for C5: a concrete upper-case GIF filename resolves to
`image/gif`. -/
theorem content_type_spec_witness :
    getContentType "photo.GIF" = "image/gif" :=
  (content_type_spec "photo.GIF" "u").2.2.1 (by decide)

/-- A successful `uploadFile` try block returns exactly the public URL of the
date-partitioned paper key. -/
theorem uploadFileBody_ok (w : UploadBackend) (o u t v : String)
    (h : uploadFileBody w o u t = Except.ok v) :
    v = publicUrl (paperFilepath o u t) := by
  unfold uploadFileBody at h
  split at h
  · cases h
  · split at h
    · cases h
    · split at h
      · cases h
      · split at h
        · cases h
        · split at h
          · cases h
          · cases h
            rfl

/-- A successful `uploadProfilePicture` try block returns exactly the public
URL of the user-partitioned profile key. -/
theorem uploadProfilePictureBody_ok (w : UploadBackend) (o u uid v : String)
    (h : uploadProfilePictureBody w o u uid = Except.ok v) :
    v = publicUrl (profileFilepath uid o u) := by
  unfold uploadProfilePictureBody at h
  split at h
  · cases h
  · split at h
    · cases h
    · split at h
      · cases h
      · split at h
        · cases h
        · split at h
          · cases h
          · cases h
            rfl

/-- Claim C2: the constructed object key is
`papers/<date>/<base>-<uuid><ext>` for documents and
`profiles/<userId>/<base>-<uuid><ext>` for profile pictures, and every
returned value is exactly `https://storage.googleapis.com/revault-files/`
followed by that key; in particular `report.pdf` on `2024-01-15` yields key
`papers/2024-01-15/report-<uuid>.pdf` and the matching URL. -/
theorem upload_key_url (w : UploadBackend) (orig uuid today userId url : String) :
    (uploadFile w orig uuid today = Except.ok url →
      url = "https://storage.googleapis.com/revault-files/" ++
        ("papers/" ++ today ++ "/" ++ uniqueFilename orig uuid)) ∧
    (uploadProfilePicture w orig uuid userId = Except.ok url →
      url = "https://storage.googleapis.com/revault-files/" ++
        ("profiles/" ++ userId ++ "/" ++ uniqueFilename orig uuid)) ∧
    uniqueFilename "report.pdf" uuid = "report" ++ "-" ++ uuid ++ ".pdf" ∧
    publicUrl (paperFilepath "report.pdf" uuid "2024-01-15") =
      "https://storage.googleapis.com/revault-files/papers/2024-01-15/report-" ++
        uuid ++ ".pdf" := by
  have he : extname "report.pdf" = ".pdf" := by decide
  have hb : basenameExt "report.pdf" ".pdf" = "report" := by decide
  refine ⟨?_, ?_, ?_, ?_⟩
  · intro h
    rcases hres : uploadFileBody w orig uuid today with m | u0
    · simp [uploadFile, hres] at h
    · simp only [uploadFile, hres] at h
      cases h
      exact (uploadFileBody_ok w orig uuid today _ hres).trans (publicUrl_eq _)
  · intro h
    rcases hres : uploadProfilePictureBody w orig uuid userId with m | u0
    · simp [uploadProfilePicture, hres] at h
    · simp only [uploadProfilePicture, hres] at h
      cases h
      exact (uploadProfilePictureBody_ok w orig uuid userId _ hres).trans (publicUrl_eq _)
  · unfold uniqueFilename
    rw [he, hb]
  · unfold publicUrl paperFilepath uniqueFilename
    rw [he, hb]
    rw [strCollapse ("papers/" ++ "2024-01-15" ++ "/") ("report" ++ "-")
      "papers/2024-01-15/report-" uuid ".pdf" (by decide)]
    rw [strCollapse ("https://storage.googleapis.com/" ++ bucketName ++ "/")
      "papers/2024-01-15/report-"
      "https://storage.googleapis.com/revault-files/papers/2024-01-15/report-"
      uuid ".pdf" (by decide)]

/-- Witness for C2: a fully successful backend and a concrete uuid produce
exactly the documented URL. -/
theorem upload_key_url_witness :
    publicUrl (paperFilepath "report.pdf" "1234" "2024-01-15") =
      "https://storage.googleapis.com/revault-files/" ++
        ("papers/" ++ "2024-01-15" ++ "/" ++ uniqueFilename "report.pdf" "1234") :=
  (upload_key_url
    ⟨⟨Except.ok [], Except.ok true, Except.ok ()⟩, Except.ok (), Except.ok true, Except.ok ()⟩
    "report.pdf" "1234" "2024-01-15" "u123"
    (publicUrl (paperFilepath "report.pdf" "1234" "2024-01-15"))).1 rfl

/-- Claim C3: for any fixed original filename (in particular two calls with
identical original names), upload calls with distinct freshly generated uuids
produce distinct object keys, for both the paper and the profile variant. -/
theorem unique_keys (orig today userId u1 u2 : String) (h : u1 ≠ u2) :
    paperFilepath orig u1 today ≠ paperFilepath orig u2 today ∧
    profileFilepath userId orig u1 ≠ profileFilepath userId orig u2 := by
  constructor
  · intro he
    apply h
    unfold paperFilepath uniqueFilename at he
    exact strMidInj _ _ _ _ _ he
  · intro he
    apply h
    unfold profileFilepath uniqueFilename at he
    exact strMidInj _ _ _ _ _ he

/-- Witness for C3: two uploads of `report.pdf` with different uuids get
different keys. -/
theorem unique_keys_witness :
    paperFilepath "report.pdf" "aaa" "2024-01-15" ≠
      paperFilepath "report.pdf" "bbb" "2024-01-15" :=
  (unique_keys "report.pdf" "2024-01-15" "u123" "aaa" "bbb" (by decide)).1

/-- Claim C6: after a successful save, each upload variant re-checks that the
object exists; when that check returns false, the upload raises its
verification error (wrapped by the catch) instead of returning a URL. -/
theorem upload_verification_failure (w : UploadBackend) (orig uuid today userId : String)
    (h0 : testConnection w.conn = true) (h1 : w.saveRes = Except.ok ())
    (h2 : w.existsAfterRes = Except.ok false) :
    uploadFile w orig uuid today =
      Except.error ("Failed to upload PDF file: " ++ "File was not found after upload") ∧
    uploadProfilePicture w orig uuid userId =
      Except.error
        ("Failed to upload profile picture: " ++ "Profile picture was not found after upload") ∧
    (∀ url, uploadFile w orig uuid today ≠ Except.ok url) ∧
    (∀ url, uploadProfilePicture w orig uuid userId ≠ Except.ok url) := by
  have hbody : uploadFileBody w orig uuid today =
      Except.error "File was not found after upload" := by
    simp [uploadFileBody, h0, h1, h2]
  have hpbody : uploadProfilePictureBody w orig uuid userId =
      Except.error "Profile picture was not found after upload" := by
    simp [uploadProfilePictureBody, h0, h1, h2]
  refine ⟨?_, ?_, ?_, ?_⟩
  · simp [uploadFile, hbody]
  · simp [uploadProfilePicture, hpbody]
  · intro url
    simp [uploadFile, hbody]
  · intro url
    simp [uploadProfilePicture, hpbody]

/-- Witness for C6: a backend whose save succeeds but whose existence check
answers false makes `uploadFile` return the wrapped verification error. -/
theorem upload_verification_failure_witness :
    uploadFile
      ⟨⟨Except.ok [], Except.ok true, Except.ok ()⟩, Except.ok (), Except.ok false, Except.ok ()⟩
      "report.pdf" "1234" "2024-01-15" =
      Except.error ("Failed to upload PDF file: " ++ "File was not found after upload") :=
  (upload_verification_failure
    ⟨⟨Except.ok [], Except.ok true, Except.ok ()⟩, Except.ok (), Except.ok false, Except.ok ()⟩
    "report.pdf" "1234" "2024-01-15" "u123" (by decide) rfl rfl).1

/-- Claim C7: `testConnection` always produces a boolean and never raises:
every failing backend call inside it is caught and downgraded to `false`, and
it returns `true` exactly when listing buckets succeeds, the target bucket
exists, and its metadata can be fetched (in particular, only when the bucket
exists). -/
theorem testConnection_spec (b : Backend) :
    (∀ m, testConnectionBody b = Except.error m → testConnection b = false) ∧
    (testConnection b = true ↔
      (∃ bs, b.getBucketsRes = Except.ok bs) ∧ b.bucketExistsRes = Except.ok true ∧
        b.bucketMetadataRes = Except.ok ()) := by
  rcases b with ⟨gb, be, bm⟩
  constructor
  · intro m hm
    simp [testConnection, hm]
  · rcases gb with m | bs
    · simp [testConnection, testConnectionBody]
    · rcases be with m | ex
      · simp [testConnection, testConnectionBody]
      · cases ex
        · simp [testConnection, testConnectionBody]
        · rcases bm with m | u
          · simp [testConnection, testConnectionBody]
          · cases u
            simp [testConnection, testConnectionBody]

/-- Witness for C7: a healthy backend yields `true`; a backend whose bucket
listing throws yields `false`. -/
theorem testConnection_spec_witness :
    testConnection ⟨Except.ok ["revault-files"], Except.ok true, Except.ok ()⟩ = true ∧
    testConnection ⟨Except.error "network down", Except.ok true, Except.ok ()⟩ = false :=
  ⟨(testConnection_spec ⟨Except.ok ["revault-files"], Except.ok true, Except.ok ()⟩).2.mpr
      ⟨⟨["revault-files"], rfl⟩, rfl, rfl⟩,
    (testConnection_spec ⟨Except.error "network down", Except.ok true, Except.ok ()⟩).1
      "network down" rfl⟩

/-- Claim C8: `deleteProfilePicture` always produces a boolean and never
raises: it deletes the object at key `profiles/<userId>/<filename>` with no
prior existence check, returns `true` when the SDK delete succeeds, and turns
every failure (including deleting a non-existent key) into `false`. -/
theorem delete_never_raises (del : String → Except String Unit) (userId filename : String) :
    (deleteProfilePicture del userId filename = true ∨
      deleteProfilePicture del userId filename = false) ∧
    (del ("profiles/" ++ userId ++ "/" ++ filename) = Except.ok () →
      deleteProfilePicture del userId filename = true) ∧
    (∀ m, del ("profiles/" ++ userId ++ "/" ++ filename) = Except.error m →
      deleteProfilePicture del userId filename = false) := by
  refine ⟨?_, ?_, ?_⟩
  · cases h : deleteProfilePicture del userId filename
    · right; rfl
    · left; rfl
  · intro h
    simp [deleteProfilePicture, deleteFilepath, h]
  · intro m h
    simp [deleteProfilePicture, deleteFilepath, h]

/-- Witness for C8: deleting a non-existent key (SDK raises) returns
`false`. -/
theorem delete_never_raises_witness :
    deleteProfilePicture (fun _ => Except.error "No such object") "u123" "old.png" = false :=
  (delete_never_raises (fun _ => Except.error "No such object") "u123" "old.png").2.2
    "No such object" rfl

/-- Counterexample to claim C9 as stated: credential-resolution,
public-policy and bucket-creation failures are re-raised with their message
unchanged — `throw error` in the catch block — so no human-readable prefix is
added to the propagated error (the prefix appears only in the console log). -/
theorem error_wrapping_counterexample :
    makeBucketPublic (Except.error "boom") = Except.error "boom" ∧
    makeBucketPublic (Except.error "boom") ≠
      Except.error ("Error making bucket public: " ++ "boom") ∧
    createBucketIfNotExists (Except.ok false) (Except.error "boom") (Except.ok ()) =
      Except.error "boom" ∧
    initStorage ⟨none, false, some "IyM=", none, none, none⟩ (Except.error "boom") =
      Except.error "boom" :=
  ⟨rfl, fun h => absurd (Except.error.inj h) (by decide), rfl, rfl⟩

/-- Claim C9 (amended): upload failures — including verification failures —
are re-raised wrapped with a human-readable prefix naming the operation, while
credential-resolution, bucket-creation and public-policy failures are
re-raised unchanged (their identifying prefix goes only to the diagnostic
log). -/
theorem error_wrapping_amended (w : UploadBackend) (e : CredEnv)
    (orig uuid today userId m : String) (c s : Except String Unit) :
    (uploadFileBody w orig uuid today = Except.error m →
      uploadFile w orig uuid today =
        Except.error ("Failed to upload PDF file: " ++ m)) ∧
    (uploadProfilePictureBody w orig uuid userId = Except.error m →
      uploadProfilePicture w orig uuid userId =
        Except.error ("Failed to upload profile picture: " ++ m)) ∧
    makeBucketPublic (Except.error m) = Except.error m ∧
    createBucketIfNotExists (Except.error m) c s = Except.error m ∧
    createBucketIfNotExists (Except.ok false) (Except.error m) s = Except.error m ∧
    createBucketIfNotExists (Except.ok false) (Except.ok ()) (Except.error m) =
      Except.error m ∧
    (useKeyFileCond e = false → useBase64Cond e = true →
      initStorage e (Except.error m) = Except.error m) := by
  refine ⟨?_, ?_, rfl, rfl, rfl, rfl, ?_⟩
  · intro h
    simp [uploadFile, h]
  · intro h
    simp [uploadProfilePicture, h]
  · intro h1 h2
    simp [initStorage, h1, h2]

/-- Witness for C9 (amended): a failed connectivity gate makes `uploadFile`
raise the wrapped message, and a rejected IAM policy call propagates its
message unchanged. -/
theorem error_wrapping_amended_witness :
    uploadFile
      ⟨⟨Except.error "network down", Except.ok true, Except.ok ()⟩,
        Except.ok (), Except.ok true, Except.ok ()⟩
      "report.pdf" "1234" "2024-01-15" =
      Except.error
        ("Failed to upload PDF file: " ++ "Google Cloud Storage connection failed") :=
  (error_wrapping_amended
    ⟨⟨Except.error "network down", Except.ok true, Except.ok ()⟩,
      Except.ok (), Except.ok true, Except.ok ()⟩
    ⟨none, false, none, none, none, none⟩
    "report.pdf" "1234" "2024-01-15" "u123" "Google Cloud Storage connection failed"
    (Except.ok ()) (Except.ok ())).1 rfl

/-- Claim C10: object keys are built by raw string concatenation with no
sanitization: `deleteProfilePicture` targets exactly
`profiles/ ++ userId ++ / ++ filename`, `uploadProfilePicture` embeds the
caller-supplied user id verbatim, and a user id containing a path separator
(such as `a/b`) is embedded as-is, changing the key's partition structure
(the same key is reachable under a different user-id/filename split). -/
theorem raw_key_concatenation (u1 u2 userId f orig uuid : String) :
    deleteFilepath userId f = "profiles/" ++ userId ++ "/" ++ f ∧
    profileFilepath userId orig uuid =
      "profiles/" ++ userId ++ "/" ++ uniqueFilename orig uuid ∧
    deleteFilepath (u1 ++ "/" ++ u2) f = deleteFilepath u1 (u2 ++ "/" ++ f) ∧
    deleteFilepath "a/b" "pic.png" = "profiles/a/b/pic.png" ∧
    profileFilepath "a/b" "pic.png" "xyz" = "profiles/a/b/pic-xyz.png" := by
  refine ⟨rfl, rfl, ?_, by decide, by decide⟩
  apply String.ext
  simp [deleteFilepath]
